import Mathlib

/-!
Shallow embedding of `src/temperature_notifier.py` (class `TempMonitor` and
its `__main__` block).  Temperatures are modelled as rationals (`ℚ`): the
claims under study are about control flow, parsing and selection order, not
about binary floating-point rounding.  Python strings are modelled as Lean
`String` (for messages and configuration values) and as `List Char` (for the
character-level parsing pipeline of `get_temp`).  Effects (HTTP requests,
sleeps, notifications, the lock marker) are modelled as explicit traces
returned by the embedded functions; the outcome of each external interaction
(HTTP response, sensor output, lock availability) is an input environment.
-/

/-- Membership of `sub` in `s` as a contiguous substring, phrased as an
explicit decomposition of `s`. -/
def containsStr (s sub : String) : Prop :=
  ∃ a b : String, s = a ++ sub ++ b

/-- Python `str.strip(c)` for a single character `c`: remove every leading
and every trailing occurrence of `c`. -/
def pyStrip (c : Char) (s : String) : String :=
  String.mk (((s.data.dropWhile (fun d => d = c)).reverse.dropWhile (fun d => d = c)).reverse)

/-- The parsed configuration file as `configparser` hands it to the code:
`telegram` is the `[Telegram]` section when present, as an association list
of raw key/value pairs in file order.  `none` models a missing section
(including an unreadable or absent file, which `configparser` reads as an
empty configuration). -/
structure INIConfig where
  telegram : Option (List (String × String))

/-- Key lookup in a section, as `config['Telegram'][key]` / the `in` test. -/
def sectionGet (key : String) (sec : List (String × String)) : Option String :=
  (sec.find? (fun p => p.1 = key)).map (fun p => p.2)

def keyBotToken : String := "bot_token"

def keyChatId : String := "chat_id"

def readConfigErrMsg : String :=
  "Telegram bot token or chat ID not found in config.ini file. This could be due to the format of the config file."

def loadConfigErrMsg : String := "Telegram bot token or chat ID not found."

/-- Embedding of `TempMonitor._read_config`: raise `ValueError` when the
`Telegram` section is absent or either key is missing from it; otherwise
store both values with every surrounding `"` stripped (`.strip('"')`). -/
def readConfig (cfg : INIConfig) : Except String (String × String) :=
  match cfg.telegram with
  | none => Except.error readConfigErrMsg
  | some sec =>
    match sectionGet keyBotToken sec, sectionGet keyChatId sec with
    | some bt, some ci => Except.ok (pyStrip ('"') bt, pyStrip ('"') ci)
    | some _, none => Except.error readConfigErrMsg
    | none, some _ => Except.error readConfigErrMsg
    | none, none => Except.error readConfigErrMsg

/-- Embedding of `TempMonitor._load_telegram_config`: run `_read_config`,
then raise if either stored value `is None`.  In the source the stored
values come from `configparser` and are always `str`, never `None`, so the
guard compares `some _` with `none` and can never fire; the embedding keeps
the dead test as written. -/
def loadTelegramConfig (cfg : INIConfig) : Except String (String × String) :=
  match readConfig cfg with
  | Except.error e => Except.error e
  | Except.ok (bt, ci) =>
    if some bt = (none : Option String) ∨ some ci = (none : Option String) then
      Except.error loadConfigErrMsg
    else
      Except.ok (bt, ci)

/-- One pass of Python `str.replace(pat, "")` over the remaining characters.
The counter `k` is the number of characters of an already-matched pattern
occurrence still to be skipped; at `k = 0` the scanner tests whether `pat`
starts at the current position and, on a match, skips it (left-to-right,
non-overlapping, exactly as `str.replace` substitutes).  The source only
ever replaces with the empty string, so only removal is modelled. -/
def raGo (pat : List Char) : List Char → Nat → List Char
  | [], _ => []
  | _ :: rest, k + 1 => raGo pat rest k
  | c :: rest, 0 =>
    if pat ≠ [] ∧ pat.isPrefixOf (c :: rest) then
      raGo pat rest (pat.length - 1)
    else
      c :: raGo pat rest 0

/-- Python `s.replace(pat, "")` on character lists. -/
def replaceAll (pat s : List Char) : List Char :=
  raGo pat s 0

/-- The characters that `str.strip()` (and `float()`, before parsing)
treats as whitespace; the ASCII subset suffices for this program. -/
def isPyWs (c : Char) : Bool :=
  c = ' ' ∨ c = '\t' ∨ c = '\n' ∨ c = '\r'

/-- Leading and trailing whitespace removal, as `float()` applies to its
argument before parsing. -/
def stripWs (s : List Char) : List Char :=
  ((s.dropWhile isPyWs).reverse.dropWhile isPyWs).reverse

/-- Value of a digit string read in base 10 (`digitsToNat [] = 0`). -/
def digitsToNat (l : List Char) : Nat :=
  l.foldl (fun a c => 10 * a + (c.toNat - 48)) 0

/-- Parse an unsigned Python float literal of the modelled subset:
`digits`, `digits.digits`, `digits.` or `.digits` (the sensor output
`<float>` is always of this shape; exponents, `inf`/`nan` and digit
underscores never occur in it and are left out of the model). -/
def pyFloatCore (t : List Char) : Option ℚ :=
  let ip := t.takeWhile Char.isDigit
  match t.dropWhile Char.isDigit with
  | [] => if ip = [] then none else some ((digitsToNat ip : ℚ))
  | d :: fr =>
    if d = '.' then
      if fr.all Char.isDigit ∧ (ip ≠ [] ∨ fr ≠ []) then
        some ((digitsToNat ip : ℚ) + (digitsToNat fr : ℚ) / (10 : ℚ) ^ fr.length)
      else
        none
    else
      none

def floatErrMsg : String := "could not convert string to float"

/-- Python `float(s)`: strip whitespace, allow an optional sign, then parse
the unsigned literal; a `ValueError` is an `Except.error`. -/
def pyFloatE (s : List Char) : Except String ℚ :=
  match stripWs s with
  | [] => Except.error floatErrMsg
  | d :: u =>
    if d = '+' then
      match pyFloatCore u with
      | some v => Except.ok v
      | none => Except.error floatErrMsg
    else if d = '-' then
      match pyFloatCore u with
      | some v => Except.ok (-v)
      | none => Except.error floatErrMsg
    else
      match pyFloatCore (d :: u) with
      | some v => Except.ok v
      | none => Except.error floatErrMsg

def tempPat : List Char := "temp=".data

def cSuffixPat : List Char := "'C\n".data

/-- Embedding of `TempMonitor.get_temp`.  `line` is the single line read
from the external command's output (empty when the command produced
nothing, e.g. was not found or exited without output).  The code strips
every occurrence of `temp=` and then of `'C\n`, converts with `float`,
and returns `None` (here `none`) when any step raises. -/
def getTemp (line : List Char) : Option ℚ :=
  match pyFloatE (replaceAll cSuffixPat (replaceAll tempPat line)) with
  | Except.ok v => some v
  | Except.error _ => none

/-- Rendering of a temperature value inside an f-string.  The Python
interpolation of a float is idealised as the decimal rendering of the
rational. -/
def ratStr (q : ℚ) : String :=
  toString q

/-- A notification handed to `send_notification`, kept structured so a
trace records which f-string produced it: `threshold` is the body built in
`monitor_temp` from the matched entry and the reading, `plain` any other
pre-formatted body. -/
inductive Notif
  | threshold (thr : ℚ) (msg : String) (temp : ℚ)
  | plain (body : String)
deriving DecidableEq

def warnPre : String := "*WARNING - TEMPERATURE EXCEEDS "

def warnMid : String := "c.*\n"

def warnSep : String := ": "

def warnSuf : String := "c!"

/-- The body string of a notification; for `threshold` it is the f-string
of `monitor_temp`: `*WARNING - TEMPERATURE EXCEEDS {threshold}c.*\n{message}: {temp}c!`. -/
def Notif.body : Notif → String
  | .threshold thr msg temp => warnPre ++ ratStr thr ++ warnMid ++ msg ++ warnSep ++ ratStr temp ++ warnSuf
  | .plain b => b

/-- Whether a notification is a threshold warning (so carries a numeric
reading value in its body). -/
def Notif.isThresholdWarning : Notif → Bool
  | .threshold _ _ _ => true
  | .plain _ => false

/-- The default `temp_thresholds` dictionary installed by `__init__` when
none is passed; Python dictionaries iterate in insertion order, so the
dictionary is embedded as the association list in source order. -/
def defaultThresholds : List (ℚ × String) :=
  [(80, "TEMPERATURE IS VERY HIGH"),
   (70, "TEMPERATURE IS HIGH"),
   (60, "TEMPERATURE IS CLIMBING. Keep an eye on it")]

/-- The state of a `TempMonitor` object that the embedded methods read:
the threshold table and the loaded credentials. -/
structure TempMonitor where
  temp_thresholds : List (ℚ × String)
  bot_token : String
  chat_id : String
deriving DecidableEq

def urlHead : String := "https://api.telegram.org/bot"

def urlSendPath : String := "/sendMessage?chat_id="

def urlParseMode : String := "&parse_mode=Markdown&text="

/-- The request URL built by the f-string in `send_notification`: the body
is interpolated verbatim into the `text` query parameter. -/
def sendMessageUrl (bot_token chat_id body : String) : String :=
  urlHead ++ bot_token ++ urlSendPath ++ chat_id ++ urlParseMode ++ body

/-- Outcome of one `requests.get` call, supplied by the environment: an
HTTP response with a status code, or a transport-level
`RequestException`. -/
inductive HttpOutcome
  | status (code : Nat)
  | transportError (e : String)
deriving DecidableEq

/-- `requests.get(url)`: returns the response status, or raises. -/
def requestsGet (o : HttpOutcome) (_url : String) : Except String Nat :=
  match o with
  | .status code => Except.ok code
  | .transportError e => Except.error e

/-- What `send_notification` logged about its attempt. -/
inductive SendOutcome
  | sent
  | httpError (code : Nat)
  | transportFailed (e : String)
deriving DecidableEq

/-- The trace of one `send_notification` call: the GET requests issued (in
order) and the logged outcome. -/
structure SendResult where
  requests : List String
  outcome : SendOutcome
deriving DecidableEq

/-- Embedding of `TempMonitor.send_notification`: build the URL, issue one
GET; status 200 logs success, any other status logs an error, and a raised
`RequestException` is caught by the surrounding `try`/`except` and logged.
Every branch returns normally — nothing propagates to the caller and the
request is never reissued. -/
def sendNotification (m : TempMonitor) (body : String) (o : HttpOutcome) : SendResult :=
  let url := sendMessageUrl m.bot_token m.chat_id body
  match requestsGet o url with
  | Except.ok code =>
    if code = 200 then
      { requests := [url], outcome := SendOutcome.sent }
    else
      { requests := [url], outcome := SendOutcome.httpError code }
  | Except.error e => { requests := [url], outcome := SendOutcome.transportFailed e }

/-- The `for threshold, message in self.temp_thresholds.items()` loop of
`monitor_temp` for a present reading `t`: at the first entry with
`t > threshold` it emits the warning notification and `break`s; otherwise
it moves on.  The second component counts how many entries were compared,
recording exactly how far the iteration proceeded. -/
def monitorLoop (t : ℚ) : List (ℚ × String) → List Notif × Nat
  | [] => ([], 0)
  | (thr, msg) :: rest =>
    if t > thr then
      ([Notif.threshold thr msg t], 1)
    else
      let r := monitorLoop t rest
      (r.1, r.2 + 1)

/-- Embedding of `TempMonitor.monitor_temp`: a `None` reading logs and
returns before touching the table; a present reading runs the loop.
Returns the notifications emitted and the number of entries compared. -/
def monitorTemp (temp : Option ℚ) (thresholds : List (ℚ × String)) : List Notif × Nat :=
  match temp with
  | none => ([], 0)
  | some t => monitorLoop t thresholds

/-- `monitor_temp` as a method acting on the object state: the source
assigns to no attribute of `self`, so the state component of the result is
the unchanged object. -/
def monitorStep (m : TempMonitor) (temp : Option ℚ) : TempMonitor × (List Notif × Nat) :=
  (m, monitorTemp temp m.temp_thresholds)

def stoppedMsgHandler : String := "*Temperature Notifier Stopped.*"

def stoppedMsgRun : String := "*Temperature Monitor stopped.*"

def unexpectedPre : String := "Temperature Notifier experienced an unexpected erro:r: "

def sensorFailMsg : String := "Failed to get temperature from device."

/-- Embedding of `TempMonitor._signal_handler`: log, send the stop
notification, then `exit(0)`.  The result is the send trace and the
process exit code. -/
def signalHandler (m : TempMonitor) (o : HttpOutcome) : SendResult × Nat :=
  (sendNotification m stoppedMsgHandler o, 0)

/-- An exception delivered to the protected body of `run` by the
environment: a `KeyboardInterrupt`, or any other unexpected exception with
its message. -/
inductive BodyExc
  | kb
  | other (msg : String)
deriving DecidableEq

/-- The environment one invocation of `run` executes against: whether
`os.open(..., O_CREAT | O_EXCL | O_RDWR)` succeeds (the marker did not
already exist), whether `fcntl.lockf(..., LOCK_EX | LOCK_NB)` succeeds,
the results of the first and second `get_temp` call, an exception
optionally delivered to the protected body, and the HTTP outcome applied
to each notification request. -/
structure RunEnv where
  lockCreateOk : Bool
  lockfOk : Bool
  read1 : Option ℚ
  read2 : Option ℚ
  exc : Option BodyExc
  http : HttpOutcome
deriving DecidableEq

/-- How one invocation of `run` ended. -/
inductive RunOutcome
  | skippedCreate
  | skippedLockf
  | done
  | interrupted
  | failed (msg : String)
deriving DecidableEq

/-- The trace of one invocation of `run`: how it ended, whether the
`finally` block closed the descriptor and removed the marker, how many
`get_temp` calls were made, the `time.sleep` durations, and the
notifications sent with their send traces. -/
structure RunResult where
  outcome : RunOutcome
  released : Bool
  readCount : Nat
  sleeps : List Nat
  sends : List (Notif × SendResult)
deriving DecidableEq

/-- Embedding of `TempMonitor.run`.  If `os.open` with
`O_CREAT | O_EXCL | O_RDWR` raises, log and `return` (no marker was
created, nothing to release).  If `fcntl.lockf` raises, log and `return`
(this path leaves the descriptor open and the marker in place; the
`try`/`finally` has not been entered yet).  Otherwise run the protected
body: read the temperature, on `None` sleep 5 seconds and read once more,
on a second `None` raise `ValueError` (caught below by `except Exception`);
a present reading is passed to `monitor_temp`.  `except KeyboardInterrupt`
and `except Exception` each send their notification; the `finally` block
closes the descriptor and removes the marker on every one of these exits. -/
def runCycle (m : TempMonitor) (env : RunEnv) : RunResult :=
  if env.lockCreateOk = false then
    { outcome := RunOutcome.skippedCreate, released := false,
      readCount := 0, sleeps := [], sends := [] }
  else if env.lockfOk = false then
    { outcome := RunOutcome.skippedLockf, released := false,
      readCount := 0, sleeps := [], sends := [] }
  else
    match env.exc with
    | some BodyExc.kb =>
      { outcome := RunOutcome.interrupted, released := true,
        readCount := 0, sleeps := [],
        sends := [(Notif.plain stoppedMsgRun, sendNotification m stoppedMsgRun env.http)] }
    | some (BodyExc.other e) =>
      { outcome := RunOutcome.failed e, released := true,
        readCount := 0, sleeps := [],
        sends := [(Notif.plain (unexpectedPre ++ e),
                   sendNotification m (unexpectedPre ++ e) env.http)] }
    | none =>
      match env.read1 with
      | some t =>
        { outcome := RunOutcome.done, released := true,
          readCount := 1, sleeps := [],
          sends := (monitorTemp (some t) m.temp_thresholds).1.map
            (fun n => (n, sendNotification m n.body env.http)) }
      | none =>
        match env.read2 with
        | some t =>
          { outcome := RunOutcome.done, released := true,
            readCount := 2, sleeps := [5],
            sends := (monitorTemp (some t) m.temp_thresholds).1.map
              (fun n => (n, sendNotification m n.body env.http)) }
        | none =>
          { outcome := RunOutcome.failed sensorFailMsg, released := true,
            readCount := 2, sleeps := [5],
            sends := [(Notif.plain (unexpectedPre ++ sensorFailMsg),
                       sendNotification m (unexpectedPre ++ sensorFailMsg) env.http)] }

/-- Embedding of the `__main__` block: construct the monitor (its
`__init__` loads the Telegram configuration, which may raise — an uncaught
`ValueError` makes the interpreter exit with status 1) and call `run()`,
which always returns normally; the script then exits with status 0. -/
def pyMain (cfg : INIConfig) (env : RunEnv) : Nat :=
  match loadTelegramConfig cfg with
  | Except.error _ => 1
  | Except.ok (bt, ci) =>
    let m : TempMonitor :=
      { temp_thresholds := defaultThresholds, bot_token := bt, chat_id := ci }
    let _ := runCycle m env
    0

/-- Unreserved characters of RFC 3986, which percent-encoding leaves as
they are. -/
def isUnreservedChar (c : Char) : Bool :=
  c.isAlphanum ∨ c = '-' ∨ c = '.' ∨ c = '_' ∨ c = '~'

/-- Upper-case hexadecimal digit of `n < 16`. -/
def hexDigitChar (n : Nat) : Char :=
  if n < 10 then Char.ofNat (48 + n) else Char.ofNat (55 + n)

/-- Percent-encoding of one character (ASCII range, which covers every
message the program builds). -/
def pctEncodeChar (c : Char) : List Char :=
  if isUnreservedChar c then [c]
  else ['%', hexDigitChar (c.toNat / 16 % 16), hexDigitChar (c.toNat % 16)]

/-- Percent-encoding of a message, following the spec's words: the spec
requires the notifier to "percent-encode" the message and send "the
url-encoded message as the text query parameter".  This definition is the
spec's side of the refinement comparison; the source of
`send_notification` is `sendMessageUrl`. -/
def specPercentEncode (s : String) : String :=
  String.mk ((s.data.map pctEncodeChar).flatten)

/-- A monitor with the default table and loaded credentials, used as a
concrete instance in witnesses. -/
def demoMonitor : TempMonitor :=
  { temp_thresholds := defaultThresholds, bot_token := "tok", chat_id := "chat" }

/-- Environment of an uncontended cycle with a present first reading. -/
def envOk : RunEnv :=
  { lockCreateOk := true, lockfOk := true, read1 := some 50, read2 := none,
    exc := none, http := HttpOutcome.status 200 }

/-- Environment in which both temperature reads come back absent. -/
def envSensorFail : RunEnv :=
  { lockCreateOk := true, lockfOk := true, read1 := none, read2 := none,
    exc := none, http := HttpOutcome.status 200 }

/-- Environment in which the lock marker already exists, so the exclusive
create raises `OSError`. -/
def lockHeldEnv : RunEnv :=
  { lockCreateOk := false, lockfOk := false, read1 := none, read2 := none,
    exc := none, http := HttpOutcome.status 200 }

/-- A well-formed configuration with both keys present and non-empty. -/
def cfgGood : INIConfig :=
  { telegram := some [(keyBotToken, "tok"), (keyChatId, "chat")] }

/-- A configuration whose `bot_token` value is present but empty. -/
def cfgEmptyToken : INIConfig :=
  { telegram := some [(keyBotToken, ""), (keyChatId, "x")] }

lemma containsStr_parts (a sub b : String) : containsStr (a ++ sub ++ b) sub :=
  ⟨a, b, rfl⟩

lemma monitorLoop_first (r : ℚ) :
    ∀ (T : List (ℚ × String)) (k : Nat) (hk : k < T.length),
      (∀ (j : Nat) (hj : j < T.length), j < k → ¬ r > (T.get ⟨j, hj⟩).1) →
      r > (T.get ⟨k, hk⟩).1 →
      monitorLoop r T = ([Notif.threshold (T.get ⟨k, hk⟩).1 (T.get ⟨k, hk⟩).2 r], k + 1) := by
  intro T
  induction T with
  | nil => intro k hk; exact absurd hk (by simp)
  | cons hd rest ih =>
    intro k hk hprev hmatch
    rcases hd with ⟨thr, msg⟩
    cases k with
    | zero =>
      simp only [List.get] at hmatch
      simp [monitorLoop, hmatch]
    | succ k =>
      have h0 : ¬ r > thr := by
        have := hprev 0 (by simp) (by omega)
        simpa using this
      have hk' : k < rest.length := by simpa using hk
      have hrest := ih k hk'
        (fun j hj hlt => by
          have := hprev (j + 1) (by simpa using Nat.succ_lt_succ hj) (by omega)
          simpa using this)
        (by simpa using hmatch)
      simp [monitorLoop, h0, hrest]

lemma monitorLoop_none (r : ℚ) :
    ∀ (T : List (ℚ × String)), (∀ p ∈ T, ¬ r > p.1) →
      monitorLoop r T = ([], T.length) := by
  intro T
  induction T with
  | nil => intro _; rfl
  | cons hd rest ih =>
    intro hno
    rcases hd with ⟨thr, msg⟩
    have h0 : ¬ r > thr := hno (thr, msg) (by simp)
    have := ih (fun p hp => hno p (List.mem_cons_of_mem _ hp))
    simp [monitorLoop, h0, this]

/-- C6: for every threshold table, `monitor_temp` applied to the absent
reading returns immediately: no table entry is compared (the comparison
count is 0) and no notification is emitted. -/
theorem monitor_absent_short_circuit (T : List (ℚ × String)) :
    monitorTemp none T = ([], 0) :=
  rfl

/-- C10: evaluating `monitor_temp` leaves the object state unchanged — the
threshold table keeps the same entries in the same order and the loaded
credentials are untouched — and a second evaluation on the same reading
and state yields the identical result. -/
theorem monitor_frame_idempotent (m : TempMonitor) (r : Option ℚ) :
    (monitorStep m r).1 = m ∧
    (monitorStep m r).1.temp_thresholds = m.temp_thresholds ∧
    (monitorStep m r).1.bot_token = m.bot_token ∧
    (monitorStep m r).1.chat_id = m.chat_id ∧
    (monitorStep (monitorStep m r).1 r).2 = (monitorStep m r).2 :=
  ⟨rfl, rfl, rfl, rfl, rfl⟩

/-- C2: in every execution of `run` in which lock acquisition (the
exclusive create together with the advisory lock) succeeds, the `finally`
block runs on every exit of the protected body — normal completion,
`KeyboardInterrupt`, an unexpected exception — closing the descriptor and
deleting the lock marker. -/
theorem run_releases_lock (m : TempMonitor) (env : RunEnv)
    (h1 : env.lockCreateOk = true) (h2 : env.lockfOk = true) :
    (runCycle m env).released = true := by
  rcases env with ⟨lc, lf, r1, r2, exc, http⟩
  simp only at h1 h2
  subst h1
  subst h2
  rcases exc with _ | e
  · rcases r1 with _ | t
    · rcases r2 with _ | t2 <;> simp [runCycle]
    · simp [runCycle]
  · rcases e with _ | msg <;> simp [runCycle]

/-- Witness for C2 at a concrete monitor and environment. -/
theorem run_releases_lock_witness :
    (runCycle demoMonitor envOk).released = true :=
  run_releases_lock demoMonitor envOk rfl rfl

/-- C1: for every present reading `r` and table `T`, `monitor_temp` walks
the entries in insertion order; at the first entry `(t, m)` with `r > t`
it sends exactly one notification whose body contains `t`, `m` and the
reading `r`, and stops there (exactly `k + 1` entries are compared when
the match is at index `k`); when no entry satisfies `r > t` it compares
the whole table and sends nothing. -/
theorem monitor_first_match (r : ℚ) (T : List (ℚ × String)) :
    (∀ (k : Nat) (hk : k < T.length),
        (∀ (j : Nat) (hj : j < T.length), j < k → ¬ r > (T.get ⟨j, hj⟩).1) →
        r > (T.get ⟨k, hk⟩).1 →
        monitorTemp (some r) T =
          ([Notif.threshold (T.get ⟨k, hk⟩).1 (T.get ⟨k, hk⟩).2 r], k + 1) ∧
        containsStr (Notif.body (Notif.threshold (T.get ⟨k, hk⟩).1 (T.get ⟨k, hk⟩).2 r))
          (ratStr (T.get ⟨k, hk⟩).1) ∧
        containsStr (Notif.body (Notif.threshold (T.get ⟨k, hk⟩).1 (T.get ⟨k, hk⟩).2 r))
          ((T.get ⟨k, hk⟩).2) ∧
        containsStr (Notif.body (Notif.threshold (T.get ⟨k, hk⟩).1 (T.get ⟨k, hk⟩).2 r))
          (ratStr r)) ∧
    ((∀ p ∈ T, ¬ r > p.1) → monitorTemp (some r) T = ([], T.length)) := by
  constructor
  · intro k hk hprev hmatch
    refine ⟨monitorLoop_first r T k hk hprev hmatch, ?_, ?_, ?_⟩
    · exact ⟨warnPre, warnMid ++ (T.get ⟨k, hk⟩).2 ++ warnSep ++ ratStr r ++ warnSuf,
        by simp [Notif.body, String.append_assoc]⟩
    · exact ⟨warnPre ++ ratStr (T.get ⟨k, hk⟩).1 ++ warnMid, warnSep ++ ratStr r ++ warnSuf,
        by simp [Notif.body, String.append_assoc]⟩
    · exact ⟨warnPre ++ ratStr (T.get ⟨k, hk⟩).1 ++ warnMid ++ (T.get ⟨k, hk⟩).2 ++ warnSep,
        warnSuf, by simp [Notif.body, String.append_assoc]⟩
  · exact monitorLoop_none r T

/-- Witness for C1: Scenario A of the spec — reading 82 against the
default table matches the first entry only, with one comparison. -/
theorem monitor_first_match_witness :
    monitorTemp (some 82) defaultThresholds =
      ([Notif.threshold 80 "TEMPERATURE IS VERY HIGH" 82], 1) :=
  ((monitor_first_match 82 defaultThresholds).1 0 (by decide)
    (fun j hj hlt => absurd hlt (by omega)) (by decide)).1

/-- Counterexample for C3: with a well-formed configuration and the lock
already held (the exclusive create fails), `run` logs and returns, and the
process exits 0 — not the distinguishable non-zero code the claim
states. -/
theorem exit_code_lock_held_cex :
    pyMain cfgGood lockHeldEnv = 0 ∧ pyMain cfgGood lockHeldEnv ≠ 1 := by
  constructor
  · rfl
  · decide

/-- C3 (amended): the process exits 1 exactly when loading the Telegram
configuration fails (the `ValueError` escapes `__init__` uncaught); in
every other case — normal completion, lock already held, sensor failure,
unexpected exception inside the cycle — `run` returns normally and the
process exits 0, and the signal handler also exits with code 0. -/
theorem exit_codes (cfg : INIConfig) (env : RunEnv) (m : TempMonitor) (o : HttpOutcome) :
    ((∃ e, loadTelegramConfig cfg = Except.error e) → pyMain cfg env = 1) ∧
    ((∃ v, loadTelegramConfig cfg = Except.ok v) → pyMain cfg env = 0) ∧
    (pyMain cfg env = 0 ∨ pyMain cfg env = 1) ∧
    (signalHandler m o).2 = 0 := by
  refine ⟨?_, ?_, ?_, rfl⟩
  · rintro ⟨e, he⟩
    simp [pyMain, he]
  · rintro ⟨⟨bt, ci⟩, hv⟩
    simp [pyMain, hv]
  · rcases h : loadTelegramConfig cfg with e | ⟨bt, ci⟩
    · right; simp [pyMain, h]
    · left; simp [pyMain, h]

/-- Witness for C3 (amended): the good configuration exits 0, a missing
section exits 1, and a delivered signal exits 0. -/
theorem exit_codes_witness :
    ((∃ e, loadTelegramConfig { telegram := none } = Except.error e) →
      pyMain { telegram := none } lockHeldEnv = 1) ∧
    ((∃ v, loadTelegramConfig cfgGood = Except.ok v) → pyMain cfgGood envOk = 0) ∧
    (signalHandler demoMonitor (HttpOutcome.status 200)).2 = 0 :=
  ⟨(exit_codes { telegram := none } lockHeldEnv demoMonitor (HttpOutcome.status 200)).1,
   (exit_codes cfgGood envOk demoMonitor (HttpOutcome.status 200)).2.1,
   (exit_codes cfgGood envOk demoMonitor (HttpOutcome.status 200)).2.2.2⟩

/-- Counterexample for C7: the body is interpolated into the URL verbatim,
not percent-encoded — for the body consisting of `a`, a space and `b`,
the single issued request differs from the URL carrying the url-encoded
message that the claim describes. -/
theorem send_url_not_encoded_cex :
    (sendNotification demoMonitor "a b" (HttpOutcome.status 200)).requests ≠
      [urlHead ++ "tok" ++ urlSendPath ++ "chat" ++ urlParseMode ++ specPercentEncode "a b"] ∧
    specPercentEncode "a b" = "a%20b" := by
  constructor
  · decide
  · decide

/-- C7 (amended): for every message string, `send_notification` issues
exactly one GET request to
`https://api.telegram.org/bot<token>/sendMessage` with `chat_id`,
`parse_mode=Markdown` and the message embedded verbatim (not
percent-encoded) as the `text` query parameter. -/
theorem send_url_verbatim (m : TempMonitor) (body : String) (o : HttpOutcome) :
    (sendNotification m body o).requests =
      [urlHead ++ m.bot_token ++ urlSendPath ++ m.chat_id ++ urlParseMode ++ body] := by
  rcases o with code | e
  · by_cases h : code = 200 <;> simp [sendNotification, requestsGet, sendMessageUrl, h]
  · simp [sendNotification, requestsGet, sendMessageUrl]

/-- Counterexample for C9: a configuration whose `bot_token` value is the
empty string is accepted — the loader returns the credentials instead of
raising, because the `is None` guard never fires on `configparser`
strings. -/
theorem config_empty_value_cex :
    loadTelegramConfig cfgEmptyToken = Except.ok ("", "x") := by
  rfl

/-- C9 (amended): the loader raises exactly when the `Telegram` section is
absent or either key is absent; when both keys are present it stores both
values with surrounding quote characters stripped, even when a value is
the empty string. -/
theorem config_loader (cfg : INIConfig) :
    (cfg.telegram = none → ∃ e, loadTelegramConfig cfg = Except.error e) ∧
    (∀ sec, cfg.telegram = some sec →
      ((sectionGet keyBotToken sec = none ∨ sectionGet keyChatId sec = none) →
        ∃ e, loadTelegramConfig cfg = Except.error e) ∧
      (∀ bt ci, sectionGet keyBotToken sec = some bt → sectionGet keyChatId sec = some ci →
        loadTelegramConfig cfg = Except.ok (pyStrip ('"') bt, pyStrip ('"') ci))) := by
  constructor
  · intro h
    exact ⟨readConfigErrMsg, by simp [loadTelegramConfig, readConfig, h]⟩
  · intro sec hsec
    constructor
    · intro hmiss
      refine ⟨readConfigErrMsg, ?_⟩
      rcases hbt : sectionGet keyBotToken sec with _ | bt
      · rcases hci : sectionGet keyChatId sec with _ | ci <;>
          simp [loadTelegramConfig, readConfig, hsec, hbt, hci]
      · rcases hci : sectionGet keyChatId sec with _ | ci
        · simp [loadTelegramConfig, readConfig, hsec, hbt, hci]
        · rw [hbt, hci] at hmiss
          simp at hmiss
    · intro bt ci hbt hci
      simp [loadTelegramConfig, readConfig, hsec, hbt, hci]

/-- Witness for C9 (amended): the loader accepts the good configuration
and returns its quote-stripped values. -/
theorem config_loader_witness :
    loadTelegramConfig cfgGood = Except.ok (pyStrip ('"') "tok", pyStrip ('"') "chat") :=
  ((config_loader cfgGood).2 [(keyBotToken, "tok"), (keyChatId, "chat")] rfl).2
    "tok" "chat" (by decide) (by decide)

/-- C8: every notification attempt issues exactly one request (no retry);
a non-200 status is logged as an HTTP error and a transport exception is
caught and logged, and in both cases `send_notification` returns normally;
the rest of the run cycle — its outcome, lock release, read count, sleeps
and the list of notifications — is unchanged by the HTTP outcome. -/
theorem send_failures_swallowed (m : TempMonitor) (body : String)
    (o o' : HttpOutcome) (env : RunEnv) :
    (sendNotification m body o).requests.length = 1 ∧
    (∀ code, o = HttpOutcome.status code → code ≠ 200 →
      (sendNotification m body o).outcome = SendOutcome.httpError code) ∧
    (∀ e, o = HttpOutcome.transportError e →
      (sendNotification m body o).outcome = SendOutcome.transportFailed e) ∧
    ((runCycle m { env with http := o }).outcome = (runCycle m { env with http := o' }).outcome ∧
     (runCycle m { env with http := o }).released = (runCycle m { env with http := o' }).released ∧
     (runCycle m { env with http := o }).readCount = (runCycle m { env with http := o' }).readCount ∧
     (runCycle m { env with http := o }).sleeps = (runCycle m { env with http := o' }).sleeps ∧
     (runCycle m { env with http := o }).sends.map Prod.fst =
       (runCycle m { env with http := o' }).sends.map Prod.fst) := by
  refine ⟨?_, ?_, ?_, ?_⟩
  · rcases o with code | e
    · by_cases h : code = 200 <;> simp [sendNotification, requestsGet, h]
    · simp [sendNotification, requestsGet]
  · rintro code rfl hne
    simp [sendNotification, requestsGet, hne]
  · rintro e rfl
    simp [sendNotification, requestsGet]
  · rcases env with ⟨lc, lf, r1, r2, exc, http⟩
    rcases lc with _ | _
    · simp [runCycle]
    · rcases lf with _ | _
      · simp [runCycle]
      · rcases exc with _ | e
        · rcases r1 with _ | t
          · rcases r2 with _ | t2 <;>
              simp [runCycle, List.map_map, Function.comp]
          · simp [runCycle, List.map_map, Function.comp]
        · rcases e with _ | msg <;> simp [runCycle]

/-- Witness for C8 at a concrete monitor, body and outcomes: a 500
response and a transport error are both recorded without escaping, with
one request each, and the cycle trace is the same under both. -/
theorem send_failures_swallowed_witness :
    (sendNotification demoMonitor "hi" (HttpOutcome.status 500)).requests.length = 1 ∧
    (∀ code, HttpOutcome.status 500 = HttpOutcome.status code → code ≠ 200 →
      (sendNotification demoMonitor "hi" (HttpOutcome.status 500)).outcome =
        SendOutcome.httpError code) ∧
    (∀ e, HttpOutcome.status 500 = HttpOutcome.transportError e →
      (sendNotification demoMonitor "hi" (HttpOutcome.status 500)).outcome =
        SendOutcome.transportFailed e) ∧
    ((runCycle demoMonitor { envOk with http := HttpOutcome.status 500 }).outcome =
       (runCycle demoMonitor { envOk with http := HttpOutcome.transportError "down" }).outcome ∧
     (runCycle demoMonitor { envOk with http := HttpOutcome.status 500 }).released =
       (runCycle demoMonitor { envOk with http := HttpOutcome.transportError "down" }).released ∧
     (runCycle demoMonitor { envOk with http := HttpOutcome.status 500 }).readCount =
       (runCycle demoMonitor { envOk with http := HttpOutcome.transportError "down" }).readCount ∧
     (runCycle demoMonitor { envOk with http := HttpOutcome.status 500 }).sleeps =
       (runCycle demoMonitor { envOk with http := HttpOutcome.transportError "down" }).sleeps ∧
     (runCycle demoMonitor { envOk with http := HttpOutcome.status 500 }).sends.map Prod.fst =
       (runCycle demoMonitor { envOk with http := HttpOutcome.transportError "down" }).sends.map
         Prod.fst) :=
  send_failures_swallowed demoMonitor "hi" (HttpOutcome.status 500)
    (HttpOutcome.transportError "down") envOk

/-- C4: in a cycle whose lock acquisition succeeded and to which no
exception is delivered, an absent first reading causes exactly one
`time.sleep(5)` and exactly one retry (two reads in total, never more);
if the retry is also absent the cycle ends as the fatal sensor error —
no threshold evaluation happens, so no notification carrying a reading
value is attempted — and the lock is still released. -/
theorem run_retry_once (m : TempMonitor) (env : RunEnv)
    (h1 : env.lockCreateOk = true) (h2 : env.lockfOk = true)
    (hexc : env.exc = none) (hr1 : env.read1 = none) :
    (runCycle m env).sleeps = [5] ∧
    (runCycle m env).readCount = 2 ∧
    (env.read2 = none →
      (runCycle m env).outcome = RunOutcome.failed sensorFailMsg ∧
      (∀ p ∈ (runCycle m env).sends, p.1.isThresholdWarning = false) ∧
      (runCycle m env).released = true) := by
  rcases env with ⟨lc, lf, r1, r2, exc, http⟩
  simp only at h1 h2 hexc hr1
  subst h1
  subst h2
  subst hexc
  subst hr1
  rcases r2 with _ | t2
  · refine ⟨by simp [runCycle], by simp [runCycle], ?_⟩
    intro _
    refine ⟨by simp [runCycle], ?_, by simp [runCycle]⟩
    intro p hp
    simp [runCycle] at hp
    simp [hp, Notif.isThresholdWarning]
  · refine ⟨by simp [runCycle], by simp [runCycle], ?_⟩
    intro h
    exact absurd h (by simp)

/-- Witness for C4: with both reads absent in an uncontended cycle, the
sleep happens once, exactly two reads occur, the cycle fails with the
sensor error, no threshold notification is attempted and the lock is
released. -/
theorem run_retry_once_witness :
    (runCycle demoMonitor envSensorFail).sleeps = [5] ∧
    (runCycle demoMonitor envSensorFail).readCount = 2 ∧
    (envSensorFail.read2 = none →
      (runCycle demoMonitor envSensorFail).outcome = RunOutcome.failed sensorFailMsg ∧
      (∀ p ∈ (runCycle demoMonitor envSensorFail).sends, p.1.isThresholdWarning = false) ∧
      (runCycle demoMonitor envSensorFail).released = true) :=
  run_retry_once demoMonitor envSensorFail rfl rfl rfl rfl

lemma isPrefixOf_append_self (l t : List Char) : l.isPrefixOf (l ++ t) = true := by
  induction l with
  | nil => simp [List.isPrefixOf]
  | cons c cs ih => simp [List.isPrefixOf, ih]

lemma raGo_skip (pat : List Char) : ∀ (a xs : List Char), raGo pat (a ++ xs) a.length = raGo pat xs 0 := by
  intro a
  induction a with
  | nil => intro xs; rfl
  | cons c a' ih => intro xs; simpa [raGo] using ih xs

lemma raGo_head (pat xs : List Char) (h : pat ≠ []) : raGo pat (pat ++ xs) 0 = raGo pat xs 0 := by
  rcases pat with _ | ⟨p, pr⟩
  · exact absurd rfl h
  · have hpre : (p :: pr).isPrefixOf ((p :: pr) ++ xs) = true := isPrefixOf_append_self _ _
    have e1 : raGo (p :: pr) ((p :: pr) ++ xs) 0 = raGo (p :: pr) (pr ++ xs) pr.length := by
      simp [raGo, hpre]
    rw [e1, raGo_skip]

lemma raGo_no_match (p : Char) (pr : List Char) :
    ∀ (xs ys : List Char), (∀ c ∈ xs, c ≠ p) →
      raGo (p :: pr) (xs ++ ys) 0 = xs ++ raGo (p :: pr) ys 0 := by
  intro xs
  induction xs with
  | nil => intro ys _; rfl
  | cons c xs' ih =>
    intro ys h
    have hc : c ≠ p := h c (by simp)
    have hpre : (p :: pr).isPrefixOf (c :: (xs' ++ ys)) = false := by
      simp [List.isPrefixOf]
      intro he
      exact absurd he.symm hc
    have e : raGo (p :: pr) (c :: (xs' ++ ys)) 0 = c :: raGo (p :: pr) (xs' ++ ys) 0 := by
      simp [raGo, hpre]
    rw [List.cons_append, e, ih ys (fun d hd => h d (List.mem_cons_of_mem _ hd))]
    rfl

lemma raGo_no_occurrence (p : Char) (pr xs : List Char) (h : ∀ c ∈ xs, c ≠ p) :
    raGo (p :: pr) xs 0 = xs := by
  have h0 : raGo (p :: pr) ([] : List Char) 0 = [] := rfl
  have := raGo_no_match p pr xs [] h
  rw [List.append_nil, h0, List.append_nil] at this
  exact this

lemma replaceAll_strip_suffix (p : Char) (pr xs : List Char) (h : ∀ c ∈ xs, c ≠ p) :
    replaceAll (p :: pr) (xs ++ (p :: pr)) = xs := by
  unfold replaceAll
  rw [raGo_no_match p pr xs (p :: pr) h]
  have h2 : raGo (p :: pr) (p :: pr) 0 = [] := by
    have := raGo_head (p :: pr) [] (by simp)
    simpa using this
  rw [h2, List.append_nil]

lemma dropWhile_all_false {α : Type} (p : α → Bool) :
    ∀ xs : List α, (∀ c ∈ xs, p c = false) → xs.dropWhile p = xs := by
  intro xs
  induction xs with
  | nil => intro _; rfl
  | cons c cs _ =>
    intro h
    rw [List.dropWhile_cons, h c (by simp)]
    simp

lemma stripWs_id (xs : List Char) (h : ∀ c ∈ xs, isPyWs c = false) : stripWs xs = xs := by
  unfold stripWs
  rw [dropWhile_all_false _ xs h,
    dropWhile_all_false _ xs.reverse (fun c hc => h c (List.mem_reverse.mp hc)),
    List.reverse_reverse]

lemma digit_ne_of_not_digit (c d : Char) (hc : c.isDigit = true) (hd : d.isDigit = false) :
    c ≠ d := by
  intro h
  rw [h, hd] at hc
  cases hc

lemma digit_not_ws (c : Char) (hc : c.isDigit = true) : isPyWs c = false := by
  have hne : ¬(c = ' ' ∨ c = '\t' ∨ c = '\n' ∨ c = '\r') := by
    rintro (rfl | rfl | rfl | rfl) <;> exact absurd hc (by decide)
  simpa [isPyWs] using hne

lemma takeWhile_append_stop (p : Char → Bool) :
    ∀ (ds : List Char) (x : Char) (r : List Char),
      (∀ c ∈ ds, p c = true) → p x = false →
      (ds ++ x :: r).takeWhile p = ds := by
  intro ds
  induction ds with
  | nil =>
    intro x r _ hx
    simp [List.takeWhile_cons, hx]
  | cons c cs ih =>
    intro x r h hx
    rw [List.cons_append, List.takeWhile_cons, h c (by simp),
      ih x r (fun d hd => h d (List.mem_cons_of_mem _ hd)) hx]
    simp

lemma dropWhile_append_stop (p : Char → Bool) :
    ∀ (ds : List Char) (x : Char) (r : List Char),
      (∀ c ∈ ds, p c = true) → p x = false →
      (ds ++ x :: r).dropWhile p = x :: r := by
  intro ds
  induction ds with
  | nil =>
    intro x r _ hx
    simp [List.dropWhile_cons, hx]
  | cons c cs ih =>
    intro x r h hx
    rw [List.cons_append, List.dropWhile_cons, h c (by simp)]
    simpa using ih x r (fun d hd => h d (List.mem_cons_of_mem _ hd)) hx

lemma clean_line (ds fs : List Char)
    (h1 : ∀ c ∈ ds, c.isDigit = true) (h2 : ∀ c ∈ fs, c.isDigit = true) :
    replaceAll cSuffixPat (replaceAll tempPat (tempPat ++ (ds ++ '.' :: (fs ++ cSuffixPat)))) =
      ds ++ '.' :: fs := by
  have hrest : ∀ c ∈ ds ++ '.' :: (fs ++ cSuffixPat), c ≠ 't' := by
    intro c hc
    simp only [List.mem_append, List.mem_cons] at hc
    rcases hc with h | h | h | h
    · exact digit_ne_of_not_digit c 't' (h1 c h) (by decide)
    · subst h; decide
    · exact digit_ne_of_not_digit c 't' (h2 c h) (by decide)
    · revert h
      have : ∀ c ∈ cSuffixPat, c ≠ 't' := by decide
      exact this c
  have step1 : replaceAll tempPat (tempPat ++ (ds ++ '.' :: (fs ++ cSuffixPat))) =
      ds ++ '.' :: (fs ++ cSuffixPat) := by
    unfold replaceAll
    rw [raGo_head tempPat _ (by decide)]
    have htp : tempPat = 't' :: "emp=".data := rfl
    rw [htp]
    exact raGo_no_occurrence 't' ("emp=".data) _ hrest
  rw [step1]
  have hxs : ∀ c ∈ ds ++ '.' :: fs, c ≠ '\'' := by
    intro c hc
    simp only [List.mem_append, List.mem_cons] at hc
    rcases hc with h | h | h
    · exact digit_ne_of_not_digit c '\'' (h1 c h) (by decide)
    · subst h; decide
    · exact digit_ne_of_not_digit c '\'' (h2 c h) (by decide)
  have hassoc : ds ++ '.' :: (fs ++ cSuffixPat) = (ds ++ '.' :: fs) ++ cSuffixPat := by
    simp [List.append_assoc]
  rw [hassoc]
  have hcs : cSuffixPat = '\'' :: "C\n".data := rfl
  rw [hcs]
  exact replaceAll_strip_suffix '\'' ("C\n".data) _ hxs

lemma pyFloatCore_decimal (ds fs : List Char) (hds : ds ≠ [])
    (h1 : ∀ c ∈ ds, c.isDigit = true) (h2 : ∀ c ∈ fs, c.isDigit = true) :
    pyFloatCore (ds ++ '.' :: fs) =
      some ((digitsToNat ds : ℚ) + (digitsToNat fs : ℚ) / (10 : ℚ) ^ fs.length) := by
  unfold pyFloatCore
  rw [takeWhile_append_stop Char.isDigit ds '.' fs h1 (by decide),
    dropWhile_append_stop Char.isDigit ds '.' fs h1 (by decide)]
  have hall : fs.all Char.isDigit = true := List.all_eq_true.mpr h2
  simp [hall, hds]

lemma pyFloatE_decimal (ds fs : List Char) (hds : ds ≠ [])
    (h1 : ∀ c ∈ ds, c.isDigit = true) (h2 : ∀ c ∈ fs, c.isDigit = true) :
    pyFloatE (ds ++ '.' :: fs) =
      Except.ok ((digitsToNat ds : ℚ) + (digitsToNat fs : ℚ) / (10 : ℚ) ^ fs.length) := by
  have hsw : stripWs (ds ++ '.' :: fs) = ds ++ '.' :: fs := by
    refine stripWs_id _ ?_
    intro c hc
    simp only [List.mem_append, List.mem_cons] at hc
    rcases hc with h | h | h
    · exact digit_not_ws c (h1 c h)
    · subst h; decide
    · exact digit_not_ws c (h2 c h)
  rcases ds with _ | ⟨d, ds'⟩
  · exact absurd rfl hds
  · have hd : d.isDigit = true := h1 d (by simp)
    have hplus : d ≠ '+' := digit_ne_of_not_digit d '+' hd (by decide)
    have hminus : d ≠ '-' := digit_ne_of_not_digit d '-' hd (by decide)
    have hcore := pyFloatCore_decimal (d :: ds') fs (by simp) h1 h2
    rw [List.cons_append] at hcore
    unfold pyFloatE
    rw [hsw, List.cons_append]
    simp [hplus, hminus, hcore]

/-- C5: `get_temp` never propagates an exception — whenever the `float`
conversion of the cleaned command output raises, the caller receives the
absent reading (`none`), and in particular an empty command output (the
command not found, or failing without output) yields `none`; on output of
the literal form `temp=<digits>.<digits>'C` followed by the newline
`readline` keeps, it returns the parsed decimal value. -/
theorem getTemp_contract :
    (∀ (line : List Char) (e : String),
        pyFloatE (replaceAll cSuffixPat (replaceAll tempPat line)) = Except.error e →
        getTemp line = none) ∧
    getTemp [] = none ∧
    (∀ ds fs : List Char, ds ≠ [] →
        (∀ c ∈ ds, c.isDigit = true) → (∀ c ∈ fs, c.isDigit = true) →
        getTemp (tempPat ++ (ds ++ '.' :: (fs ++ cSuffixPat))) =
          some ((digitsToNat ds : ℚ) + (digitsToNat fs : ℚ) / (10 : ℚ) ^ fs.length)) := by
  refine ⟨?_, rfl, ?_⟩
  · intro line e he
    simp [getTemp, he]
  · intro ds fs hds h1 h2
    unfold getTemp
    rw [clean_line ds fs h1 h2, pyFloatE_decimal ds fs hds h1 h2]

/-- Witness for C5: the real sensor line `temp=47.2'C` (with trailing
newline) parses to the decimal value of `47` and `2/10`, and a shell
error line yields the absent reading. -/
theorem getTemp_contract_witness :
    getTemp (tempPat ++ ("47".data ++ '.' :: ("2".data ++ cSuffixPat))) =
      some ((digitsToNat ("47".data) : ℚ) +
        (digitsToNat ("2".data) : ℚ) / (10 : ℚ) ^ ("2".data).length) ∧
    getTemp [] = none :=
  ⟨getTemp_contract.2.2 ("47".data) ("2".data) (by decide) (by decide) (by decide),
   getTemp_contract.2.1⟩
